import Mathlib

/-!
Verification of the scoped-mut-tls library (src/lib.rs): a scoped, mutable,
thread-local storage slot.  The per-thread storage is a `Cell<usize>` holding
0 when empty and the address of the published `&mut T` when occupied.  We model
one thread as a `State T`: the `cell` marker, a memory `mem : Nat → T` giving
the value stored at each address, and a ghost event `log` used only to state
ordering properties of the restore actions (the log is instrumentation; the
library code never branches on it).  Callback bodies are state transformers
returning an `Outcome`, which is either a normal result or a propagating
panic.  Panics carry either a user payload or the message of the `assert!`
inside `with`.
-/

/-- A panic in flight: either raised by user code with payload `p`, or the
`assert!` failure raised inside `with` with its message. -/
inductive PanicInfo (P : Type) where
  | user (payload : P)
  | assertFailed (msg : String)
deriving DecidableEq

/-- Result of running a callback body or a library operation: a normal result
or a propagating panic. -/
inductive Outcome (P R : Type) where
  | ok (r : R)
  | panicked (info : PanicInfo P)
deriving DecidableEq

/-- Ghost trace events: `restore v` records one execution of the drop glue of
a `Reset` guard writing `v` back into the cell; `observed x` records a client
callback reading the published value `x` through `with`. -/
inductive Evt (T : Type) where
  | restore (val : Nat)
  | observed (v : T)
deriving DecidableEq

/-- Per-thread state of one declared slot: the `Cell<usize>` marker (`0` =
empty, nonzero = address of the published value), the memory assigning a `T`
to each address, and the ghost event log. -/
structure State (T : Type) where
  cell : Nat
  mem : Nat → T
  log : List (Evt T)

/-- The message of the `assert!` in `with` (src/lib.rs lines 174-175). -/
def notSetMsg : String :=
  "cannot access a scoped thread local variable without calling set first"

/-- Drop glue of the `Reset` guard (src/lib.rs lines 83-87): writes the
remembered marker `val` back into the cell.  The ghost log records the event. -/
def Reset.drop {T : Type} (val : Nat) (s : State T) : State T :=
  { s with cell := val, log := s.log ++ [Evt.restore val] }

/-- A callback body passed to `set`: runs in the current thread state and
produces an outcome together with the successor state. -/
def Body (T P R : Type) : Type := State T → Outcome P R × State T

/-- `ScopedMutKey::set` (src/lib.rs lines 128-142): remembers the previous
marker, stores the address `t` of the published `&mut T`, runs the body, and
the `Reset` guard restores the previous marker when the body returns or
unwinds.  The outcome of the body (normal or panic) is passed through. -/
def ScopedMutKey.set {T P R : Type} (t : Nat) (f : Body T P R) (s : State T) :
    Outcome P R × State T :=
  let prev := s.cell
  let fr := f { s with cell := t }
  (fr.1, Reset.drop prev fr.2)

/-- `ScopedMutKey::with` (src/lib.rs lines 167-186): reads the current marker,
clears the cell to 0, panics via `assert!` when the marker was 0, otherwise
runs the body on the reference reconstructed from the marker (modelled by
handing the body the address), with a `Reset` guard restoring the marker when
the body returns or unwinds. -/
def ScopedMutKey.with_ {T P R : Type} (f : Nat → Body T P R) (s : State T) :
    Outcome P R × State T :=
  let val := s.cell
  let s1 : State T := { s with cell := 0 }
  if val = 0 then
    (Outcome.panicked (PanicInfo.assertFailed notSetMsg), s1)
  else
    let fr := f val s1
    (fr.1, Reset.drop val fr.2)

/-- `ScopedMutKey::is_set` (src/lib.rs lines 189-191): reads the cell and
reports whether it is nonzero; the state is returned unchanged. -/
def ScopedMutKey.is_set {T : Type} (s : State T) : Bool × State T :=
  (s.cell != 0, s)

/-- The per-thread cell declared by `scoped_mut_thread_local!`
(src/lib.rs lines 43-56): lazily initialized to `Cell::new(0)`, i.e. empty.
`mem` is the ambient memory of the thread. -/
def scoped_mut_thread_local {T : Type} (mem : Nat → T) : State T :=
  { cell := 0, mem := mem, log := [] }

/-- A process with one slot declaration and many threads: each thread has its
own independent `State` (the `thread_local!` storage). -/
def Threads (T : Type) : Type := Nat → State T

/-- All threads start with the lazily initialized empty cell. -/
def initThreads {T : Type} (mem : Nat → T) : Threads T :=
  fun _ => scoped_mut_thread_local mem

/-- `LocalKey::with` dispatch: an operation invoked on thread `i` runs on
thread `i`'s own cell and leaves every other thread's storage untouched. -/
def onThread {T P R : Type} (i : Nat) (op : State T → Outcome P R × State T)
    (ts : Threads T) : Outcome P R × Threads T :=
  let r := op (ts i)
  (r.1, fun j => if j = i then r.2 else ts j)

/-- The test-style reading callback for `with`: returns the published value at
the handed-over address and records it in the ghost log. -/
def readBody {T P : Type} : Nat → Body T P T :=
  fun a st => (Outcome.ok (st.mem a), { st with log := st.log ++ [Evt.observed (st.mem a)] })

/-- The test-style writing callback for `with`: overwrites the published value
at the handed-over address with `w`. -/
def writeBody {T P : Type} (w : T) : Nat → Body T P Unit :=
  fun a st => (Outcome.ok (), { st with mem := fun x => if x = a then w else st.mem x })

/-- The trivial callback body used to instantiate universally quantified
bodies in witnesses. -/
def idBody : Body Nat Unit Unit := fun st => (Outcome.ok (), st)

/-- A body that immediately panics with a user payload, as in the
`panic_resets` test. -/
def panicBody : Body Nat Unit Unit := fun st => (Outcome.panicked (PanicInfo.user ()), st)

/-- A fresh slot on a thread whose memory holds 7 everywhere. -/
def s7 : State Nat := scoped_mut_thread_local (fun _ => 7)

/-- A slot currently occupied by the value at address 1 (memory is the
identity, so address 1 holds 1 and address 2 holds 2). -/
def sOcc : State Nat := { cell := 1, mem := fun x => x, log := [] }

/-- The body of the outer set in the panic_resets scenario: while a cleanup
value (the Check of the test) is alive, the inner set publishes the value at
address 2 and its body panics at once; during the unwind the drop glue of the
cleanup value reads the slot through with, and the panic keeps propagating. -/
def c2OuterBody : Body Nat Unit Unit := fun st =>
  let inner := ScopedMutKey.set 2 panicBody st
  let cleaned := (ScopedMutKey.with_ (readBody : Nat → Body Nat Unit Nat) inner.2).2
  (inner.1, cleaned)

/-- The panic_resets scenario run from a fresh slot whose memory is the
identity: publish the value 1 at address 1, then inside publish the value 2
at address 2 and fail. -/
def c2Run : Outcome Unit Unit × State Nat :=
  ScopedMutKey.set 1 c2OuterBody (scoped_mut_thread_local (fun x => x))

/-- Claim C8: is_set returns true iff the current marker of the slot is
nonzero (occupied), leaves the state unchanged (no side effects), and on a
freshly declared slot of a thread that has not called set it returns false. -/
theorem is_set_spec {T : Type} (s : State T) (mem : Nat → T) :
    ((ScopedMutKey.is_set s).1 = true ↔ s.cell ≠ 0) ∧
    (ScopedMutKey.is_set s).2 = s ∧
    (ScopedMutKey.is_set (scoped_mut_thread_local mem)).1 = false := by
  refine ⟨?_, rfl, rfl⟩
  simp [ScopedMutKey.is_set]

/-- Claim C4: calling with while the slot is empty (is_set false) panics with
the assert message of the precondition violation, never returns a normal
value, and the callback is never consulted (any two callbacks give the same
result). -/
theorem with_unset_panics {T P R : Type} (f g : Nat → Body T P R) (s : State T)
    (h : (ScopedMutKey.is_set s).1 = false) :
    (ScopedMutKey.with_ f s).1 = Outcome.panicked (PanicInfo.assertFailed notSetMsg) ∧
    (∀ r : R, (ScopedMutKey.with_ f s).1 ≠ Outcome.ok r) ∧
    ScopedMutKey.with_ f s = ScopedMutKey.with_ g s := by
  have h0 : s.cell = 0 := by simpa [ScopedMutKey.is_set] using h
  refine ⟨?_, ?_, ?_⟩ <;> simp [ScopedMutKey.with_, h0]

/-- Claim C4 witness: instantiated at a fresh slot and two distinct bodies. -/
theorem with_unset_panics_witness :
    (ScopedMutKey.is_set s7).1 = false ∧
    ((ScopedMutKey.with_ (fun _ => idBody) s7).1 =
        Outcome.panicked (PanicInfo.assertFailed notSetMsg) ∧
      (∀ r : Unit, (ScopedMutKey.with_ (fun _ => idBody) s7).1 ≠ Outcome.ok r) ∧
      ScopedMutKey.with_ (fun _ => idBody) s7 = ScopedMutKey.with_ (fun _ => panicBody) s7) :=
  ⟨rfl, with_unset_panics (fun _ => idBody) (fun _ => panicBody) s7 rfl⟩

/-- Claim C9: while the callback of with runs, the state it was handed reports
is_set false (the slot is cleared for the whole extent of the callback, which
runs exactly at that cleared state), and after with returns, while the
enclosing set is still active, is_set is true again. -/
theorem with_body_sees_unset {T P R : Type} (f : Nat → Body T P R) (s : State T)
    (h : (ScopedMutKey.is_set s).1 = true) :
    (ScopedMutKey.is_set ({ s with cell := 0 } : State T)).1 = false ∧
    ScopedMutKey.with_ f s =
      ((f s.cell { s with cell := 0 }).1, Reset.drop s.cell (f s.cell { s with cell := 0 }).2) ∧
    (ScopedMutKey.is_set (ScopedMutKey.with_ f s).2).1 = true := by
  have h0 : s.cell ≠ 0 := by simpa [ScopedMutKey.is_set] using h
  refine ⟨rfl, ?_, ?_⟩ <;>
    simp [ScopedMutKey.with_, Reset.drop, ScopedMutKey.is_set, h0]

/-- Claim C9 witness: instantiated at an occupied slot with the identity body. -/
theorem with_body_sees_unset_witness :
    (ScopedMutKey.is_set sOcc).1 = true ∧
    ((ScopedMutKey.is_set ({ sOcc with cell := 0 } : State Nat)).1 = false ∧
      ScopedMutKey.with_ (fun _ => idBody) sOcc =
        (((fun _ => idBody) sOcc.cell { sOcc with cell := 0 }).1,
          Reset.drop sOcc.cell (((fun _ => idBody) sOcc.cell { sOcc with cell := 0 })).2) ∧
      (ScopedMutKey.is_set (ScopedMutKey.with_ (fun _ => idBody) sOcc).2).1 = true) :=
  ⟨rfl, with_body_sees_unset (fun _ => idBody) sOcc rfl⟩

/-- Claim C5: with reads the current marker, hands its callback exactly the
state in which the slot has been cleared to empty, unconditionally restores
the marker afterward (for every callback, panicking ones included), and a
recursive call to with inside the callback of with, without an intervening
set, hits the assert of the precondition violation instead of handing out the
same reference twice. -/
theorem with_clears_and_restores {T P R : Type} (f : Nat → Body T P R) (s : State T)
    (h : s.cell ≠ 0) :
    ScopedMutKey.with_ f s =
      ((f s.cell { s with cell := 0 }).1, Reset.drop s.cell (f s.cell { s with cell := 0 }).2) ∧
    (ScopedMutKey.is_set ({ s with cell := 0 } : State T)).1 = false ∧
    (ScopedMutKey.with_ f s).2.cell = s.cell ∧
    (ScopedMutKey.with_ (fun _ st => ScopedMutKey.with_ f st) s).1 =
      Outcome.panicked (PanicInfo.assertFailed notSetMsg) := by
  refine ⟨?_, rfl, ?_, ?_⟩ <;> simp [ScopedMutKey.with_, Reset.drop, h]

/-- Claim C5 witness: instantiated at an occupied slot with the identity body. -/
theorem with_clears_and_restores_witness :
    sOcc.cell ≠ 0 ∧
    (ScopedMutKey.with_ (fun _ => idBody) sOcc =
        (((fun _ => idBody) sOcc.cell { sOcc with cell := 0 }).1,
          Reset.drop sOcc.cell (((fun _ => idBody) sOcc.cell { sOcc with cell := 0 })).2) ∧
      (ScopedMutKey.is_set ({ sOcc with cell := 0 } : State Nat)).1 = false ∧
      (ScopedMutKey.with_ (fun _ => idBody) sOcc).2.cell = sOcc.cell ∧
      (ScopedMutKey.with_ (fun _ st => ScopedMutKey.with_ (fun _ => idBody) st) sOcc).1 =
        Outcome.panicked (PanicInfo.assertFailed notSetMsg)) :=
  ⟨by decide, with_clears_and_restores (fun _ => idBody) sOcc (by decide)⟩

/-- Claim C6: set returns exactly what its body returns, and a panic raised in
the body of set or with reaches the caller unchanged in kind and payload; the
restore of the guard has already run by then (the restore event is the last
entry of the log, after everything the body logged), the cell being back at
its previous marker; no new failure mode is introduced on this path. -/
theorem body_outcome_propagates {T P R : Type} (a : Nat) (f : Body T P R)
    (g : Nat → Body T P R) (s s2 : State T) (h : s2.cell ≠ 0) :
    (ScopedMutKey.set a f s).1 = (f { s with cell := a }).1 ∧
    (ScopedMutKey.set a f s).2.cell = s.cell ∧
    (ScopedMutKey.set a f s).2.log = (f { s with cell := a }).2.log ++ [Evt.restore s.cell] ∧
    (ScopedMutKey.with_ g s2).1 = (g s2.cell { s2 with cell := 0 }).1 ∧
    (ScopedMutKey.with_ g s2).2.cell = s2.cell ∧
    (ScopedMutKey.with_ g s2).2.log =
      (g s2.cell { s2 with cell := 0 }).2.log ++ [Evt.restore s2.cell] := by
  refine ⟨rfl, rfl, rfl, ?_, ?_, ?_⟩ <;> simp [ScopedMutKey.with_, Reset.drop, h]

/-- Claim C6 witness: instantiated with a panicking body of set and the
identity body of with, at concrete states. -/
theorem body_outcome_propagates_witness :
    sOcc.cell ≠ 0 ∧
    ((ScopedMutKey.set 2 panicBody s7).1 = (panicBody { s7 with cell := 2 }).1 ∧
      (ScopedMutKey.set 2 panicBody s7).2.cell = s7.cell ∧
      (ScopedMutKey.set 2 panicBody s7).2.log =
        (panicBody { s7 with cell := 2 }).2.log ++ [Evt.restore s7.cell] ∧
      (ScopedMutKey.with_ (fun _ => idBody) sOcc).1 =
        ((fun _ => idBody) sOcc.cell { sOcc with cell := 0 }).1 ∧
      (ScopedMutKey.with_ (fun _ => idBody) sOcc).2.cell = sOcc.cell ∧
      (ScopedMutKey.with_ (fun _ => idBody) sOcc).2.log =
        (((fun _ => idBody) sOcc.cell { sOcc with cell := 0 })).2.log ++
          [Evt.restore sOcc.cell]) :=
  ⟨by decide, body_outcome_propagates 2 panicBody (fun _ => idBody) s7 sOcc (by decide)⟩

/-- Claim C1 counterexample: starting from a fresh slot, the outer set
publishes at address 1 and its body calls an inner set at address 2; the
boolean returned is is_set immediately after the inner set returns, and it is
true, not false as the claim states for every call to set. -/
theorem nested_set_is_set_after_counterexample :
    (ScopedMutKey.set 1 (fun st =>
        let inner := ScopedMutKey.set 2 idBody st
        ((Outcome.ok (ScopedMutKey.is_set inner.2).1 : Outcome Unit Bool), inner.2))
      (scoped_mut_thread_local (fun x => x))).1 = Outcome.ok true := rfl

/-- Claim C1 (amended): for every value v and callback body, the state in
which the body begins to execute inside set reports is_set true and with
observes v there; immediately after set returns the marker is back at its
value from before the call, so is_set reports false whenever the slot was
empty before the call. -/
theorem set_publish_retract_amended {T P R : Type} (v : T) (a : Nat) (f : Body T P R)
    (s : State T) (ha : a ≠ 0) (hv : s.mem a = v) :
    (ScopedMutKey.is_set ({ s with cell := a } : State T)).1 = true ∧
    (ScopedMutKey.with_ (readBody : Nat → Body T P T) { s with cell := a }).1 = Outcome.ok v ∧
    ScopedMutKey.set a f s =
      ((f { s with cell := a }).1, Reset.drop s.cell (f { s with cell := a }).2) ∧
    (ScopedMutKey.set a f s).2.cell = s.cell ∧
    (s.cell = 0 → (ScopedMutKey.is_set (ScopedMutKey.set a f s).2).1 = false) := by
  refine ⟨?_, ?_, rfl, rfl, ?_⟩
  · simp [ScopedMutKey.is_set, ha]
  · simp [ScopedMutKey.with_, readBody, ha, hv]
  · intro h0
    simp [ScopedMutKey.set, Reset.drop, ScopedMutKey.is_set, h0]

/-- Claim C1 witness: value 7 published at address 3 of a fresh slot. -/
theorem set_publish_retract_amended_witness :
    (3 : Nat) ≠ 0 ∧ s7.mem 3 = 7 ∧
    ((ScopedMutKey.is_set ({ s7 with cell := 3 } : State Nat)).1 = true ∧
      (ScopedMutKey.with_ (readBody : Nat → Body Nat Unit Nat) { s7 with cell := 3 }).1 =
        Outcome.ok 7 ∧
      ScopedMutKey.set 3 idBody s7 =
        ((idBody { s7 with cell := 3 }).1, Reset.drop s7.cell (idBody { s7 with cell := 3 }).2) ∧
      (ScopedMutKey.set 3 idBody s7).2.cell = s7.cell ∧
      (s7.cell = 0 → (ScopedMutKey.is_set (ScopedMutKey.set 3 idBody s7).2).1 = false)) :=
  ⟨by decide, rfl, set_publish_retract_amended 7 3 idBody s7 (by decide) rfl⟩

/-- Claim C3: with the outer scope active (marker at address a, holding A),
an inner set at address b holding B hands its body a state where with
observes B; after the inner set returns — still inside the outer scope — the
marker is back at a for every inner body, and with observes A again provided
the inner body left the value at address a intact; the inner set affects the
slot only for its own nested extent. -/
theorem nested_set_lifo {T P R : Type} (A B : T) (a b : Nat) (f : Body T P R)
    (s : State T) (ha : a ≠ 0) (hb : b ≠ 0) (hA : s.mem a = A) (hB : s.mem b = B)
    (hcell : s.cell = a) :
    (ScopedMutKey.with_ (readBody : Nat → Body T P T) { s with cell := b }).1 =
      Outcome.ok B ∧
    ScopedMutKey.set b f s =
      ((f { s with cell := b }).1, Reset.drop s.cell (f { s with cell := b }).2) ∧
    (ScopedMutKey.set b f s).2.cell = a ∧
    ((ScopedMutKey.set b f s).2.mem a = A →
      (ScopedMutKey.with_ (readBody : Nat → Body T P T) (ScopedMutKey.set b f s).2).1 =
        Outcome.ok A) := by
  refine ⟨?_, rfl, ?_, ?_⟩
  · simp [ScopedMutKey.with_, readBody, hb, hB]
  · simp [ScopedMutKey.set, Reset.drop, hcell]
  · intro hA2
    simp [ScopedMutKey.with_, readBody, ScopedMutKey.set, Reset.drop, hcell, ha] at hA2 ⊢
    simp [hA2]

/-- Claim C3 witness: outer value 1 at address 1 (slot occupied), inner value
2 at address 2, identity inner body. -/
theorem nested_set_lifo_witness :
    (1 : Nat) ≠ 0 ∧ (2 : Nat) ≠ 0 ∧ sOcc.mem 1 = 1 ∧ sOcc.mem 2 = 2 ∧ sOcc.cell = 1 ∧
    ((ScopedMutKey.with_ (readBody : Nat → Body Nat Unit Nat) { sOcc with cell := 2 }).1 =
        Outcome.ok 2 ∧
      ScopedMutKey.set 2 idBody sOcc =
        ((idBody { sOcc with cell := 2 }).1,
          Reset.drop sOcc.cell (idBody { sOcc with cell := 2 }).2) ∧
      (ScopedMutKey.set 2 idBody sOcc).2.cell = 1 ∧
      ((ScopedMutKey.set 2 idBody sOcc).2.mem 1 = 1 →
        (ScopedMutKey.with_ (readBody : Nat → Body Nat Unit Nat)
            (ScopedMutKey.set 2 idBody sOcc).2).1 = Outcome.ok 1)) :=
  ⟨by decide, by decide, rfl, rfl, rfl,
    nested_set_lifo 1 2 1 2 idBody sOcc (by decide) (by decide) rfl rfl rfl⟩

/-- Claim C7: publishing the value at address a on a fresh slot and
overwriting it with w through the reference handed to the callback of with
leaves w at address a — visible to the owner — after set returns, the slot
being empty again. -/
theorem mutation_visible_to_owner {T P : Type} (w : T) (a : Nat) (s : State T)
    (ha : a ≠ 0) (h0 : s.cell = 0) :
    (ScopedMutKey.set a
        (fun st => ScopedMutKey.with_ (writeBody w : Nat → Body T P Unit) st) s).2.mem a = w ∧
    (ScopedMutKey.is_set
        (ScopedMutKey.set a
          (fun st => ScopedMutKey.with_ (writeBody w : Nat → Body T P Unit) st) s).2).1 =
      false := by
  constructor <;>
    simp [ScopedMutKey.set, ScopedMutKey.with_, writeBody, Reset.drop,
      ScopedMutKey.is_set, ha, h0]

/-- Claim C7 witness: address 1 of a fresh slot holds 1; the callback writes
2; the owner sees 2 after set returns. -/
theorem mutation_visible_to_owner_witness :
    (1 : Nat) ≠ 0 ∧ (scoped_mut_thread_local (fun x => x) : State Nat).cell = 0 ∧
    ((ScopedMutKey.set 1
        (fun st => ScopedMutKey.with_ (writeBody 2 : Nat → Body Nat Unit Unit) st)
        (scoped_mut_thread_local (fun x => x))).2.mem 1 = 2 ∧
      (ScopedMutKey.is_set
          (ScopedMutKey.set 1
            (fun st => ScopedMutKey.with_ (writeBody 2 : Nat → Body Nat Unit Unit) st)
            (scoped_mut_thread_local (fun x => x))).2).1 = false) :=
  ⟨by decide, rfl,
    mutation_visible_to_owner 2 1 (scoped_mut_thread_local (fun x => x)) (by decide) rfl⟩

/-- Claim C2: the guard of set restores the previous marker for every body
and every state, panicking bodies included; in the concrete scenario —
publish 1, nested publish 2, immediate failure — the panic propagates out of
the outer set, the slot ends empty, and the ghost log shows each of the three
guards restoring exactly once in LIFO order (inner set guard first, writing
back the marker of the enclosing scope, then the guard of the with used by
the unwind cleanup, then the outer set guard), with the cleanup observing the
enclosing value 1 during the unwind. -/
theorem panic_restores_lifo :
    (∀ (P R : Type) (a : Nat) (f : Body Nat P R) (s : State Nat),
        (ScopedMutKey.set a f s).2.cell = s.cell) ∧
    c2Run.1 = Outcome.panicked (PanicInfo.user ()) ∧
    c2Run.2.cell = 0 ∧
    c2Run.2.log = [Evt.restore 1, Evt.observed 1, Evt.restore 1, Evt.restore 0] := by
  exact ⟨fun P R a f s => rfl, rfl, rfl, rfl⟩

/-- Claim C10: an operation of the slot performed by thread i — a set or a
with — leaves the storage of every other thread j untouched, so is_set on
thread j is unaffected; and from the initial per-thread storage every thread
reports the slot empty until it performs its own set. -/
theorem thread_independence {T P R : Type} (i j a : Nat) (f : Body T P R)
    (g : Nat → Body T P R) (ts : Threads T) (mem : Nat → T) (hij : j ≠ i) :
    (onThread i (ScopedMutKey.set a f) ts).2 j = ts j ∧
    (onThread i (ScopedMutKey.with_ g) ts).2 j = ts j ∧
    (ScopedMutKey.is_set ((onThread i (ScopedMutKey.set a f) ts).2 j)).1 =
      (ScopedMutKey.is_set (ts j)).1 ∧
    (ScopedMutKey.is_set (initThreads mem j)).1 = false := by
  refine ⟨?_, ?_, ?_, rfl⟩ <;> simp [onThread, hij]

/-- Claim C10 witness: thread 0 runs a set at address 1 and a with; thread 1
is unaffected and reports the slot empty. -/
theorem thread_independence_witness :
    (1 : Nat) ≠ 0 ∧
    ((onThread 0 (ScopedMutKey.set 1 idBody) (initThreads (fun _ => 0))).2 1 =
        initThreads (fun _ => 0) 1 ∧
      (onThread 0 (ScopedMutKey.with_ (fun _ => idBody)) (initThreads (fun _ => 0))).2 1 =
        initThreads (fun _ => 0) 1 ∧
      (ScopedMutKey.is_set
          ((onThread 0 (ScopedMutKey.set 1 idBody) (initThreads (fun _ => 0))).2 1)).1 =
        (ScopedMutKey.is_set (initThreads (fun _ => 0) 1)).1 ∧
      (ScopedMutKey.is_set (initThreads (fun _ => (0 : Nat)) 1)).1 = false) :=
  ⟨by decide,
    thread_independence 0 1 1 idBody (fun _ => idBody) (initThreads (fun _ => 0))
      (fun _ => 0) (by decide)⟩
